import Mathlib

/-!
Shallow embedding of the URTeleop repository (gello_software/gello):
  * `gello/robots/dh_gripper.py`      — serial-SDK gripper backend (`DhGripper`)
  * `gello/robots/dh_gripper_ros.py`  — publish/subscribe gripper backend (`DhGripper`)
  * `gello/utils/launch_utils.py`     — `SimpleLaunchManager` and `move_to_start_position`

Machine floats are embedded as exact rationals (ℚ); Python `int()` truncation
is embedded explicitly; fallible operations return `Except`.
-/

namespace URTeleop

/-- Python `int(x)` on a float: truncation toward zero. -/
def pyInt (q : ℚ) : ℤ := if 0 ≤ q then ⌊q⌋ else ⌈q⌉

/-- Absolute value on ℚ, written executably; equal to Mathlib's `|q|`
(lemma `ratAbs_eq_abs` below). -/
def ratAbs (q : ℚ) : ℚ := if q < 0 then -q else q

/-- Embedding of `np.abs(v).max()` for a vector, with 0 for the empty vector
(the arrays in the embedded code are nonempty, and all entries are
absolute values, so the extra `max 0` is inert). -/
def maxAbs (l : List ℚ) : ℚ := (l.map ratAbs).foldr max 0

/-- Python exception kinds raised by the embedded code. -/
inductive PyError where
  | typeError
  | attributeError
  | assertionError
  deriving DecidableEq, Repr

namespace DhGripper

/-! ### `gello/robots/dh_gripper.py` — serial-SDK backend

The object state of `DhGripper`.  The attribute `self._position` is written
only by the monitor thread (`_update_position`) and is *never assigned in
`__init__`* (which assigns `self.position = None`, a different attribute used
by `move`'s debounce); we model the attribute slot as `Option ℚ`, where
`none` means the attribute does not exist yet, so that reading it raises
`AttributeError`. -/
structure State where
  /-- Field `self.position` — debounce slot used by `move`; `None` at construction. -/
  position : Option ℚ
  /-- Field `self._position` — slot written by the polling thread; `none` = the
  attribute was never assigned (reading it raises `AttributeError`). -/
  posAttr : Option ℚ
  /-- Field `self.binary_mode` -/
  binary_mode : Bool
  /-- Field `self.threshold` -/
  threshold : ℚ
  /-- Field `self.alpha` (used only by the dead `_smooth` helper) -/
  alpha : ℚ
  /-- Field `self.last_pos` (used only by the dead `_smooth` helper) -/
  last_pos : ℚ
  /-- Field `self._stop_flag` -/
  stop_flag : Bool
  deriving DecidableEq, Repr

/-- Embedding of `DhGripper.__init__(port, binary_mode, threshold)` — the attribute
assignments (`self.position = None`, `self.binary_mode = binary_mode`,
`self.threshold = threshold`, `self.alpha = 1`, `self.last_pos = 0`,
`self._stop_flag = False`); `self._position` is not assigned. -/
def initState (binary_mode : Bool) (threshold : ℚ) : State :=
  { position := none
    posAttr := none
    binary_mode := binary_mode
    threshold := threshold
    alpha := 1
    last_pos := 0
    stop_flag := false }

/-- One iteration of the `_update_position` loop body, given the outcome of
`self.gripper.read_pos(is_read=True)` (`Except.error` = the SDK read raised).
The body has no `try`/`except`: an SDK exception propagates out of the
iteration, so the iteration result is `Except.error` and the assignment
`self._position = pos` does not happen. -/
def updateIteration (st : State) (readResult : Except Unit ℚ) :
    Except Unit State :=
  match readResult with
  | Except.error e => Except.error e
  | Except.ok pos => Except.ok { st with posAttr := some pos }

/-- The `_update_position` polling loop, driven by a finite prefix of SDK
read outcomes.  Returns the final object state and `true` iff the thread
terminated by an uncaught exception (in which case the remaining reads are
never performed). -/
def monitorRun (st : State) : List (Except Unit ℚ) → State × Bool
  | [] => (st, false)
  | r :: rs =>
    match updateIteration st r with
    | Except.error _ => (st, true)
    | Except.ok st' => monitorRun st' rs

/-- Embedding of `DhGripper.get_current_position`: reads `self._position`.  If the
attribute was never assigned (no poll iteration has stored a value), Python
raises `AttributeError`.  Once assigned, the stored value is a number read
from the SDK, so the `if pos is None` branch is not taken and the value is
returned. -/
def get_current_position (st : State) : Except PyError (Option ℚ) :=
  match st.posAttr with
  | none => Except.error PyError.attributeError
  | some p => Except.ok (some p)

/-- A command issued on the serial channel inside `move`'s `try` block. -/
inductive Cmd where
  | setForce (val : ℚ)
  | setVel (val : ℚ)
  | setPos (val : ℤ)
  deriving DecidableEq, Repr

/-- The binary-mode collapse in `move`:
`target_pos = 0 if position < self.threshold else 1000`. -/
def collapse (threshold p : ℚ) : ℚ := if p < threshold then 0 else 1000

/-- The `try` block of `move`: `set_force(force)`, `set_vel(speed)`,
`set_pos(int(target_pos))`.  `failAt = some k` means the (k+1)-st SDK call
raises: the calls before it were already issued, and the exception is caught
and swallowed by the `except` clause. -/
def sdkBlock (failAt : Option Nat) (target speed force : ℚ) : List Cmd :=
  let cmds := [Cmd.setForce force, Cmd.setVel speed, Cmd.setPos (pyInt target)]
  match failAt with
  | none => cmds
  | some k => cmds.take k

/-- Embedding of `DhGripper.move(position, speed, force)`.  Returns the updated object
state and the commands issued on the serial channel.  In binary mode the
position is collapsed; if the collapsed target equals `self.position` the
call returns before the `try` block (no lock, no SDK call); otherwise
`self.position` is overwritten *before* the `try` block runs.  Any SDK
exception inside the block is caught and swallowed, so the call always
returns normally. -/
def move (st : State) (failAt : Option Nat) (position speed force : ℚ) :
    State × List Cmd :=
  if st.binary_mode then
    let target_pos := collapse st.threshold position
    if st.position = some target_pos then
      (st, [])
    else
      let st' := { st with position := some target_pos }
      (st', sdkBlock failAt target_pos speed force)
  else
    (st, sdkBlock failAt position speed force)

/-- Run a sequence of `move` calls `(position, speed, force)` with a healthy
SDK, concatenating the issued commands. -/
def runMoves (st : State) : List (ℚ × ℚ × ℚ) → State × List Cmd
  | [] => (st, [])
  | c :: rest =>
    let r := move st none c.1 c.2.1 c.2.2
    let r' := runMoves r.1 rest
    (r'.1, r.2 ++ r'.2)

/-- The position values carried by the `set_pos` commands of a channel
trace. -/
def setPosValues : List Cmd → List ℤ
  | [] => []
  | Cmd.setPos v :: rest => v :: setPosValues rest
  | Cmd.setForce _ :: rest => setPosValues rest
  | Cmd.setVel _ :: rest => setPosValues rest

end DhGripper

namespace RosGripper

/-! ### `gello/robots/dh_gripper_ros.py` — publish/subscribe backend -/

/-- The `GripperCtrl` message published by `move`.  The source field named
`initialize` is embedded as `initFlag`. -/
structure GripperCtrl where
  initFlag : Bool
  position : ℚ
  force : ℚ
  speed : ℚ
  deriving DecidableEq, Repr

/-- Embedding of `DhGripper.move(position, speed, force)` of the ROS backend: builds one
`GripperCtrl` message from the raw arguments and publishes it.  There is no
binary-mode collapsing, no debounce state, and no exception handling. -/
def move (position speed force : ℚ) : GripperCtrl :=
  { initFlag := false
    position := position
    force := force
    speed := speed }

/-- Run a sequence of `move` calls `(position, speed, force)`: one message
is published per call. -/
def runMoves (calls : List (ℚ × ℚ × ℚ)) : List GripperCtrl :=
  calls.map (fun c => move c.1 c.2.1 c.2.2)

end RosGripper

namespace LaunchUtils

/-! ### `gello/utils/launch_utils.py` — `SimpleLaunchManager`

The environment facade and agent are abstracted by `System`: `getObs` is
`env.get_obs()["joint_positions"]`, `step` is `env.step`, `act` is
`agent.act` (the agent reads only the joint positions of the observation).
Neither `get_obs` nor `act` mutates the environment; `step` does. -/
structure System (S : Type) where
  getObs : S → List ℚ
  step : S → List ℚ → S
  act : List ℚ → List ℚ

/-- Embedding of `np.abs(start_pos - joints)` — per-joint absolute deltas. -/
def absDeltas (startPos joints : List ℚ) : List ℚ :=
  List.zipWith (fun a b => ratAbs (a - b)) startPos joints

/-- The diagnostic lines printed by the safety gate: for each joint index
whose delta exceeds 1.0, the tuple (index, delta, leader value, follower
value).  In the source, `ids = np.arange(len(id_mask))[id_mask]` and the
masked arrays `abs_deltas[id_mask]`, `start_pos[id_mask]`, `joints[id_mask]`
are zipped — i.e. the enumeration of all indices filtered by
`abs_deltas > 1.0`. -/
def gateDiagnostics (startPos joints : List ℚ) : List (Nat × ℚ × ℚ × ℚ) :=
  (List.range joints.length).filterMap (fun i =>
    let s := startPos.getD i 0
    let j := joints.getD i 0
    let d := ratAbs (s - j)
    if 1 < d then some (i, d, s, j) else none)

/-- The per-tick cap `max_delta = 1.0` of the smoothing loop. -/
def maxDeltaCap : ℚ := 1

/-- The delta scaling of one smoothing ("Converging") iteration:
`max_joint_delta = np.abs(delta).max()`; if it exceeds the cap,
`delta = delta / max_joint_delta * max_delta`. -/
def scaleDelta (delta : List ℚ) : List ℚ :=
  let max_joint_delta := maxAbs delta
  if maxDeltaCap < max_joint_delta then
    delta.map (fun d => d / max_joint_delta * maxDeltaCap)
  else delta

/-- The 25-iteration smoothing loop: each iteration reads the observation,
asks the agent for `command_joints`, scales the delta, and steps the
environment to `current_joints + delta`.  Returns the final environment
state and the list of `env.step` arguments. -/
def convergingPhase {S : Type} (sys : System S) : Nat → S → S × List (List ℚ)
  | 0, s => (s, [])
  | n + 1, s =>
    let current_joints := sys.getObs s
    let command_joints := sys.act current_joints
    let delta :=
      scaleDelta (List.zipWith (fun a b => a - b) command_joints current_joints)
    let target := List.zipWith (fun a b => a + b) current_joints delta
    let r := convergingPhase sys n (sys.step s target)
    (r.1, target :: r.2)

/-- The unbounded main loop (`while True`), driven by fuel: each iteration
reads the observation, computes the action, and steps.  Returns the list of
`env.step` arguments issued within the fuel bound. -/
def runningPhase {S : Type} (sys : System S) : Nat → S → List (List ℚ)
  | 0, _ => []
  | n + 1, s =>
    let action := sys.act (sys.getObs s)
    action :: runningPhase sys n (sys.step s action)

/-- The observable outcome of `run_control_loop`. -/
structure RunTrace where
  /-- the safety-gate diagnostic lines printed (empty if the gate passed) -/
  diagnostics : List (Nat × ℚ × ℚ × ℚ)
  /-- every argument passed to `env.step`, in order -/
  stepCalls : List (List ℚ)
  /-- whether the smoothing loop was entered -/
  enteredConverging : Bool
  /-- whether the main `while True` loop was entered -/
  enteredRunning : Bool
  deriving DecidableEq, Repr

/-- Embedding of `SimpleLaunchManager.run_control_loop`.  `validate_agent_output` calls
the agent once and asserts the dimensions match (`AssertionError` on
mismatch).  The safety gate then compares
`abs_deltas[np.argmax(abs_deltas)]` — the maximum entry of the (nonempty)
nonnegative array `abs_deltas`, computed here as `foldr max 0` — against
`max_joint_delta = 1.0`; if it exceeds the bound, the diagnostics are
printed and the method returns without stepping.  Otherwise the smoothing
loop (25 iterations) and then the unbounded main loop run. -/
def run_control_loop {S : Type} (sys : System S) (fuel : Nat) (s : S) :
    Except PyError RunTrace :=
  let start_pos := sys.act (sys.getObs s)
  let joints := sys.getObs s
  if start_pos.length ≠ joints.length then
    Except.error PyError.assertionError
  else
    let abs_deltas := absDeltas start_pos joints
    if 1 < abs_deltas.foldr max 0 then
      Except.ok
        { diagnostics := gateDiagnostics start_pos joints
          stepCalls := []
          enteredConverging := false
          enteredRunning := false }
    else
      let r := convergingPhase sys 25 s
      let runs := runningPhase sys fuel r.1
      Except.ok
        { diagnostics := []
          stepCalls := r.2 ++ runs
          enteredConverging := true
          enteredRunning := true }

/-- Embedding of `np.linspace(a, b, num)` over joint vectors (componentwise, with the
default inclusive endpoint): `num` points; for `num ≥ 2` the k-th point is
`a + (b - a) * k / (num - 1)`; for `num = 1` it is `[a]`; empty for
`num = 0`. -/
def linspace (a b : List ℚ) : Nat → List (List ℚ)
  | 0 => []
  | 1 => [a]
  | n + 2 =>
    (List.range (n + 2)).map (fun k : ℕ =>
      List.zipWith (fun x y => x + (y - x) * (k : ℚ) / ((n : ℚ) + 1)) a b)

/-- Embedding of `steps = min(int(max_delta / 0.01), 100)` where
`max_delta = (np.abs(curr_joints - reset_joints)).max()`. -/
def moveSteps (currJoints resetJoints : List ℚ) : ℤ :=
  let max_delta :=
    maxAbs (List.zipWith (fun a b => a - b) currJoints resetJoints)
  min (pyInt (max_delta / (1 / 100))) 100

/-- The observable outcome of `move_to_start_position`. -/
structure MoveOutcome where
  /-- every argument passed to `env.step`, in order -/
  stepCalls : List (List ℚ)
  /-- whether the joint-shape-mismatch warning path was taken -/
  skippedShapeMismatch : Bool
  deriving DecidableEq, Repr

/-- The body of `move_to_start_position` on the unimanual path
(`bimanual=False`), with the arguments already bound: `currJoints` is
`env.get_obs()["joint_positions"]`, `startJoints` is
`left_cfg["agent"]["start_joints"]` (`none` when absent or `None`), and
`useGripper` is `robot._use_gripper` (when false the target is truncated to
its first 6 entries).  On shape mismatch a warning is printed and no motion
occurs; otherwise the environment is stepped through
`np.linspace(curr_joints, reset_joints, steps)`. -/
def move_to_start_position (currJoints : List ℚ)
    (startJoints : Option (List ℚ)) (useGripper : Bool) : MoveOutcome :=
  match startJoints with
  | none => { stepCalls := [], skippedShapeMismatch := false }
  | some sj =>
    let reset_joints := if useGripper then sj else sj.take 6
    if reset_joints.length ≠ currJoints.length then
      { stepCalls := [], skippedShapeMismatch := true }
    else
      { stepCalls :=
          linspace currJoints reset_joints (moveSteps currJoints reset_joints).toNat
        skippedShapeMismatch := false }

/-- Whether the call site in `launch` supplies the required positional
argument `robot` of `move_to_start_position`.  The source calls
`move_to_start_position(self.env, left_cfg=self.cfg)`, binding only `env`
and `left_cfg`, so it does not. -/
def launchSuppliesRobotArg : Bool := false

/-- Python argument binding for a call to `move_to_start_position`:
the parameter `robot` has no default value, so a call that does not supply
it raises `TypeError` before the body runs. -/
def bindMoveToStartArgs (robotSupplied : Bool) : Except PyError Unit :=
  if robotSupplied then Except.ok () else Except.error PyError.typeError

/-- Embedding of `SimpleLaunchManager.launch` after the three setup phases
(robot/communication/agent): the call
`move_to_start_position(self.env, left_cfg=self.cfg)` followed by
`self.run_control_loop()`.  An exception from the call is caught by
`except Exception`, logged, and re-raised, so `launch` propagates it.
`useGripper` is the `robot._use_gripper` flag the body would read had the
binding succeeded. -/
def launch {S : Type} (sys : System S) (startJoints : Option (List ℚ))
    (useGripper : Bool) (fuel : Nat) (s : S) : Except PyError RunTrace :=
  match bindMoveToStartArgs launchSuppliesRobotArg with
  | Except.error e => Except.error e
  | Except.ok _ =>
    let mv := move_to_start_position (sys.getObs s) startJoints useGripper
    let s' := mv.stepCalls.foldl sys.step s
    run_control_loop sys fuel s'

end LaunchUtils

/-- The safety-gate test scenario: an environment over a trivial state whose
joint positions are `[0,0,0,0,0,0]` and an agent whose first (and every)
output is `[0,0,0,0,0,2]`. -/
def gateDemoSystem : LaunchUtils.System Unit :=
  { getObs := fun _ => [0, 0, 0, 0, 0, 0]
    step := fun _ _ => ()
    act := fun _ => [0, 0, 0, 0, 0, 2] }

/-- The end-to-end test scenario: an environment whose state is its joint
vector (initially `[0,0,0,0,0,0]`) and an agent echoing the observed
joints. -/
def echoSystem : LaunchUtils.System (List ℚ) :=
  { getObs := fun s => s
    step := fun _ a => a
    act := fun obs => obs }

end URTeleop

/-! ## Theorems -/

namespace URTeleop

open DhGripper LaunchUtils

/-! ### Helper lemmas -/

theorem le_foldr_max (a : ℚ) (l : List ℚ) (h : a ∈ l) : a ≤ l.foldr max 0 := by
  induction l with
  | nil => cases h
  | cons x xs ih =>
    rcases List.mem_cons.mp h with rfl | hx
    · exact le_max_left _ _
    · exact le_trans (ih hx) (le_max_right _ _)

theorem foldr_max_nonneg (l : List ℚ) : 0 ≤ l.foldr max 0 := by
  induction l with
  | nil => exact le_refl 0
  | cons x xs ih => exact le_trans ih (le_max_right _ _)

theorem maxAbs_nonneg (l : List ℚ) : 0 ≤ maxAbs l := foldr_max_nonneg _

theorem ratAbs_eq_abs (q : ℚ) : ratAbs q = |q| := by
  unfold ratAbs
  by_cases h : q < 0
  · rw [if_pos h, abs_of_neg h]
  · rw [if_neg h, abs_of_nonneg (not_lt.mp h)]

theorem maxAbs_eq_abs (l : List ℚ) :
    maxAbs l = (l.map (fun x => |x|)).foldr max 0 := by
  unfold maxAbs
  have h : ratAbs = fun x : ℚ => |x| := funext ratAbs_eq_abs
  rw [h]

theorem abs_le_maxAbs (a : ℚ) (l : List ℚ) (h : a ∈ l) : |a| ≤ maxAbs l := by
  rw [maxAbs_eq_abs]
  exact le_foldr_max _ _ (List.mem_map_of_mem _ h)

theorem foldr_max_div (l : List ℚ) (m : ℚ) (hm : 0 < m) :
    (l.map (fun x => x / m)).foldr max 0 = (l.foldr max 0) / m := by
  induction l with
  | nil => simp
  | cons x xs ih =>
    simp only [List.map_cons, List.foldr_cons, ih]
    exact max_div_div_right hm.le x _

theorem maxAbs_map_div (l : List ℚ) (m : ℚ) (hm : 0 < m) :
    maxAbs (l.map (fun d => d / m)) = maxAbs l / m := by
  rw [maxAbs_eq_abs, maxAbs_eq_abs, List.map_map]
  have h1 : ((fun x => |x|) ∘ fun d => d / m) = fun d => |d| / m := by
    funext d
    simp [abs_div, abs_of_pos hm]
  rw [h1, ← foldr_max_div (l.map fun x => |x|) m hm, List.map_map]
  rfl

theorem pyInt_of_nonneg (q : ℚ) (h : 0 ≤ q) : pyInt q = ⌊q⌋ := by
  unfold pyInt
  exact if_pos h

theorem sdkBlock_setPos_len (f : Option Nat) (t s fo : ℚ) :
    (setPosValues (sdkBlock f t s fo)).length ≤ 1 := by
  cases f with
  | none => simp [sdkBlock, setPosValues]
  | some k =>
    rcases k with _ | _ | _ | k <;>
      simp [sdkBlock, setPosValues, List.take_succ_cons]

theorem move_binary_fst (st : State) (f : Option Nat) (p s fo : ℚ)
    (hb : st.binary_mode = true) :
    (move st f p s fo).1.position = some (collapse st.threshold p) ∧
    (move st f p s fo).1.binary_mode = true ∧
    (move st f p s fo).1.threshold = st.threshold := by
  by_cases h : st.position = some (collapse st.threshold p)
  · simp [move, hb, h]
  · simp [move, hb, h]

/-! ### C3 -/

/-- C3, counterexample: with a failing first SDK read followed by a
successful read of `5`, the `_update_position` loop terminates with an
uncaught exception (flag `true`) and never processes the second read — the
claim that a failed read is caught and the loop continues to the next
iteration is false on this input. -/
theorem monitor_crashes_on_failed_read_cex :
    (monitorRun (initState true 500) [Except.error (), Except.ok 5]).2 = true ∧
    (monitorRun (initState true 500) [Except.error (), Except.ok 5]).1.posAttr
      ≠ some 5 := by
  constructor
  · rfl
  · intro h
    cases h

/-- C3, amended: the loop body of `_update_position` has no exception
handler, so on the first failed SDK read the exception propagates: the
monitor terminates, the previously stored position is retained unchanged
(the assignment is skipped), and the remaining reads are never performed. -/
theorem monitor_read_failure_terminates (st : State)
    (rs : List (Except Unit ℚ)) :
    monitorRun st (Except.error () :: rs) = (st, true) := rfl

/-! ### C4 -/

/-- C4: after a successful poll iteration the stored position is returned
(never the "no data" sentinel and no exception); but before any poll has
stored a value, `get_current_position` raises `AttributeError` rather than
returning the sentinel, because `__init__` assigns `self.position = None`
and never `self._position`. -/
theorem get_current_position_behaviour :
    (∀ (st : State) (pos : ℚ),
      updateIteration st (Except.ok pos) =
        Except.ok { st with posAttr := some pos } ∧
      get_current_position { st with posAttr := some pos } =
        Except.ok (some pos)) ∧
    (∀ (b : Bool) (t : ℚ),
      get_current_position (initState b t) =
        Except.error PyError.attributeError) :=
  ⟨fun _ _ => ⟨rfl, rfl⟩, fun _ _ => rfl⟩

/-! ### C7 -/

/-- C7: for every position `p` in the device range 0–1000 and every
threshold `t`, the binary-mode collapse of `move` yields the high bound 1000
iff `p ≥ t` (and the low bound 0 otherwise), and the collapse is
idempotent. -/
theorem collapse_spec (t p : ℚ) (h0 : 0 ≤ p) (h1 : p ≤ 1000) :
    (collapse t p = 1000 ↔ t ≤ p) ∧
    collapse t (collapse t p) = collapse t p := by
  constructor
  · unfold collapse
    by_cases hp : p < t
    · rw [if_pos hp]
      constructor
      · intro h
        norm_num at h
      · intro h
        exact absurd hp (not_lt.mpr h)
    · rw [if_neg hp]
      exact ⟨fun _ => not_lt.mp hp, fun _ => rfl⟩
  · unfold collapse
    by_cases hp : p < t
    · rw [if_pos hp, if_pos (lt_of_le_of_lt h0 hp)]
    · rw [if_neg hp]
      have ht : ¬(1000 : ℚ) < t := not_lt.mpr (le_trans (not_lt.mp hp) h1)
      rw [if_neg ht]

/-- C7, witness at threshold 500 and position 700. -/
theorem collapse_spec_witness :
    (0 : ℚ) ≤ 700 ∧ (700 : ℚ) ≤ 1000 ∧
    ((collapse 500 700 = 1000 ↔ (500 : ℚ) ≤ 700) ∧
      collapse 500 (collapse 500 700) = collapse 500 700) :=
  ⟨by norm_num, by norm_num,
    collapse_spec 500 700 (by norm_num) (by norm_num)⟩

/-! ### C8 -/

/-- C8: in binary mode, when two consecutive `move` calls collapse to the
same bound, the second call returns on the debounce branch — before the
lock-protected SDK block — issuing no command at all and leaving the state
unchanged, and the two calls together put at most one position command on
the serial channel. -/
theorem move_debounce (st : State) (f1 f2 : Option Nat)
    (p1 s1 fo1 p2 s2 fo2 : ℚ)
    (hb : st.binary_mode = true)
    (hc : collapse st.threshold p1 = collapse st.threshold p2) :
    move (move st f1 p1 s1 fo1).1 f2 p2 s2 fo2 =
      ((move st f1 p1 s1 fo1).1, []) ∧
    (setPosValues ((move st f1 p1 s1 fo1).2 ++
      (move (move st f1 p1 s1 fo1).1 f2 p2 s2 fo2).2)).length ≤ 1 := by
  obtain ⟨hpos, hb1, ht1⟩ := move_binary_fst st f1 p1 s1 fo1 hb
  have hsecond : move (move st f1 p1 s1 fo1).1 f2 p2 s2 fo2 =
      ((move st f1 p1 s1 fo1).1, []) := by
    generalize hst1 : (move st f1 p1 s1 fo1).1 = st1 at hpos hb1 ht1
    have hdeb : st1.position = some (collapse st1.threshold p2) := by
      rw [ht1, hpos, hc]
    simp [move, hb1, hdeb]
  refine ⟨hsecond, ?_⟩
  rw [hsecond]
  simp only [List.append_nil]
  by_cases h : st.position = some (collapse st.threshold p1)
  · simp [move, hb, h, setPosValues]
  · have : (move st f1 p1 s1 fo1).2 = sdkBlock f1 (collapse st.threshold p1) s1 fo1 := by
      simp [move, hb, h]
    rw [this]
    exact sdkBlock_setPos_len _ _ _ _

/-- C8, witness: fresh gripper in binary mode with threshold 500; the calls
`move(600, 1, 2)` then `move(700, 1, 2)` both collapse to 1000. -/
theorem move_debounce_witness :
    (initState true 500).binary_mode = true ∧
    collapse (initState true 500).threshold 600 =
      collapse (initState true 500).threshold 700 ∧
    (move (move (initState true 500) none 600 1 2).1 none 700 1 2 =
      ((move (initState true 500) none 600 1 2).1, []) ∧
    (setPosValues ((move (initState true 500) none 600 1 2).2 ++
      (move (move (initState true 500) none 600 1 2).1 none 700 1 2).2)).length
      ≤ 1) :=
  ⟨rfl, by decide,
    move_debounce (initState true 500) none none 600 1 2 700 1 2 rfl (by decide)⟩

/-! ### C10 -/

/-- C10: in binary mode, a non-debounced `move` overwrites the stored
debounce target `self.position` before the `try` block, so even when the
SDK command fails (here: the first SDK call of the block raises, so the
channel sees nothing, and the exception is swallowed), the state carries the
newly collapsed target, and a subsequent `move` collapsing to the same
bound issues no command at all. -/
theorem move_updates_debounce_before_send (st : State) (k : Nat)
    (p1 s1 fo1 p2 s2 fo2 : ℚ)
    (hb : st.binary_mode = true)
    (hne : st.position ≠ some (collapse st.threshold p1))
    (hc : collapse st.threshold p1 = collapse st.threshold p2) :
    (move st (some k) p1 s1 fo1).1.position =
      some (collapse st.threshold p1) ∧
    (k = 0 → (move st (some k) p1 s1 fo1).2 = []) ∧
    move (move st (some k) p1 s1 fo1).1 none p2 s2 fo2 =
      ((move st (some k) p1 s1 fo1).1, []) := by
  refine ⟨(move_binary_fst st (some k) p1 s1 fo1 hb).1, ?_, ?_⟩
  · intro hk
    subst hk
    simp [move, hb, hne, sdkBlock]
  · exact (move_debounce st (some k) none p1 s1 fo1 p2 s2 fo2 hb hc).1

/-- C10, witness: fresh gripper in binary mode with threshold 500, first
call `move(600, 1, 2)` failing at the first SDK call, second call
`move(700, 1, 2)`. -/
theorem move_updates_debounce_before_send_witness :
    (initState true 500).binary_mode = true ∧
    (initState true 500).position ≠
      some (collapse (initState true 500).threshold 600) ∧
    collapse (initState true 500).threshold 600 =
      collapse (initState true 500).threshold 700 ∧
    ((move (initState true 500) (some 0) 600 1 2).1.position =
      some (collapse (initState true 500).threshold 600) ∧
    (0 = 0 → (move (initState true 500) (some 0) 600 1 2).2 = []) ∧
    move (move (initState true 500) (some 0) 600 1 2).1 none 700 1 2 =
      ((move (initState true 500) (some 0) 600 1 2).1, [])) :=
  ⟨rfl, by decide, by decide,
    move_updates_debounce_before_send (initState true 500) 0 600 1 2 700 1 2
      rfl (by decide) (by decide)⟩

/-! ### C9 -/

/-- C9, counterexample: in binary mode (threshold 500) from a fresh state,
the call sequence `move(600, 1, 2); move(700, 1, 2)` puts exactly one
position command (value 1000) on the serial channel, while the
publish/subscribe backend publishes two messages carrying the raw positions
600 and 700 — the two backends are not semantically equivalent. -/
theorem backends_not_equivalent_cex :
    (setPosValues
        (DhGripper.runMoves (initState true 500) [(600, 1, 2), (700, 1, 2)]).2).map
        (fun z => (z : ℚ)) ≠
      (RosGripper.runMoves [(600, 1, 2), (700, 1, 2)]).map
        (fun m => m.position) := by
  intro h
  have hlen := congrArg List.length h
  simp [DhGripper.runMoves, RosGripper.runMoves, move, initState,
    collapse, sdkBlock, setPosValues] at hlen

/-- C9, amended: the two backends agree only when binary mode is disabled;
then each `move(position, speed, force)` leaves the serial dispatcher state
unchanged and issues exactly one force/velocity/position command group whose
contents match the single published message — with the position equal
whenever it is a whole number (the serial backend truncates it with
`int()`).  With binary mode enabled the serial backend collapses and
debounces while the publish/subscribe backend publishes the raw position on
every call. -/
theorem backends_agree_without_binary_mode (st : State) (p s f : ℚ) (n : ℤ)
    (hb : st.binary_mode = false) (hp : p = (n : ℚ)) :
    move st none p s f =
      (st, [Cmd.setForce f, Cmd.setVel s, Cmd.setPos n]) ∧
    RosGripper.move p s f =
      { initFlag := false, position := (n : ℚ), force := f, speed := s } := by
  subst hp
  constructor
  · have hint : pyInt ((n : ℚ)) = n := by
      unfold pyInt
      by_cases hn : 0 ≤ ((n : ℚ))
      · rw [if_pos hn, Int.floor_intCast]
      · rw [if_neg hn, Int.ceil_intCast]
    simp [move, hb, sdkBlock, hint]
  · rfl

/-- C9, witness for the amended claim: binary mode disabled, threshold 500,
call `move(600, 1, 2)`. -/
theorem backends_agree_without_binary_mode_witness :
    (initState false 500).binary_mode = false ∧
    (600 : ℚ) = ((600 : ℤ) : ℚ) ∧
    (move (initState false 500) none 600 1 2 =
      (initState false 500,
        [Cmd.setForce 2, Cmd.setVel 1, Cmd.setPos 600]) ∧
    RosGripper.move 600 1 2 =
      { initFlag := false, position := ((600 : ℤ) : ℚ), force := 2,
        speed := 1 }) :=
  ⟨rfl, by norm_num,
    backends_agree_without_binary_mode (initState false 500) 600 1 2 600
      rfl (by norm_num)⟩

/-! ### C1 -/

/-- C1: when some per-joint absolute delta between the agent's first output
and the current joints exceeds 1.0, `run_control_loop` returns normally (no
exception) with a diagnostic line for every joint whose delta exceeds the
bound, no `env.step` call, and without entering the smoothing
("Converging") phase. -/
theorem run_control_loop_safety_gate {S : Type} (sys : System S) (fuel : Nat)
    (s : S)
    (hlen : (sys.act (sys.getObs s)).length = (sys.getObs s).length)
    (hbig : ∃ d ∈ absDeltas (sys.act (sys.getObs s)) (sys.getObs s), 1 < d) :
    run_control_loop sys fuel s =
      Except.ok
        { diagnostics := gateDiagnostics (sys.act (sys.getObs s)) (sys.getObs s)
          stepCalls := []
          enteredConverging := false
          enteredRunning := false } ∧
    ∀ i, i < (sys.getObs s).length →
      1 < ratAbs ((sys.act (sys.getObs s)).getD i 0 - (sys.getObs s).getD i 0) →
      (i, ratAbs ((sys.act (sys.getObs s)).getD i 0 - (sys.getObs s).getD i 0),
        (sys.act (sys.getObs s)).getD i 0, (sys.getObs s).getD i 0)
        ∈ gateDiagnostics (sys.act (sys.getObs s)) (sys.getObs s) := by
  constructor
  · obtain ⟨d, hd, hd1⟩ := hbig
    have hmax :
        1 < (absDeltas (sys.act (sys.getObs s)) (sys.getObs s)).foldr max 0 :=
      lt_of_lt_of_le hd1 (le_foldr_max d _ hd)
    show (if (sys.act (sys.getObs s)).length ≠ (sys.getObs s).length then
            Except.error PyError.assertionError
          else if 1 < (absDeltas (sys.act (sys.getObs s)) (sys.getObs s)).foldr max 0
          then _ else _) = _
    rw [if_neg (not_not_intro hlen), if_pos hmax]
  · intro i hi hgt
    unfold gateDiagnostics
    refine List.mem_filterMap.mpr ⟨i, List.mem_range.mpr hi, ?_⟩
    simp only
    rw [if_pos hgt]

/-- C1, witness: current joints `[0,0,0,0,0,0]`, agent output
`[0,0,0,0,0,2]` — the gate prints the single diagnostic line for joint 5
(delta 2) and no step is issued. -/
theorem run_control_loop_safety_gate_witness :
    (gateDemoSystem.act (gateDemoSystem.getObs ())).length =
      (gateDemoSystem.getObs ()).length ∧
    (∃ d ∈ absDeltas (gateDemoSystem.act (gateDemoSystem.getObs ()))
        (gateDemoSystem.getObs ()), 1 < d) ∧
    run_control_loop gateDemoSystem 1000 () =
      Except.ok
        { diagnostics :=
            gateDiagnostics (gateDemoSystem.act (gateDemoSystem.getObs ()))
              (gateDemoSystem.getObs ())
          stepCalls := []
          enteredConverging := false
          enteredRunning := false } ∧
    gateDiagnostics (gateDemoSystem.act (gateDemoSystem.getObs ()))
        (gateDemoSystem.getObs ()) = [(5, 2, 2, 0)] :=
  ⟨rfl, by norm_num [gateDemoSystem, absDeltas, ratAbs, List.zipWith],
    (run_control_loop_safety_gate gateDemoSystem 1000 () rfl
      (by norm_num [gateDemoSystem, absDeltas, ratAbs, List.zipWith])).1,
    by norm_num [gateDemoSystem, gateDiagnostics, ratAbs, List.range_succ,
      List.filterMap_cons, List.getD]⟩

/-! ### C5 -/

/-- C5: whenever the raw delta vector's maximum absolute component `m`
exceeds the cap 1.0, the smoothing loop rescales every component by the
same factor `1/m` (each component is divided by `m` and multiplied by the
cap), and the scaled vector's maximum absolute component is exactly 1. -/
theorem converging_scaling (delta : List ℚ) (h : 1 < maxAbs delta) :
    scaleDelta delta = delta.map (fun d => d * (1 / maxAbs delta)) ∧
    maxAbs (scaleDelta delta) = 1 := by
  have hm : 0 < maxAbs delta := lt_trans one_pos h
  have hsc : scaleDelta delta = delta.map (fun d => d / maxAbs delta) := by
    show (if maxDeltaCap < maxAbs delta then
            delta.map (fun d => d / maxAbs delta * maxDeltaCap)
          else delta) = _
    rw [if_pos (show maxDeltaCap < maxAbs delta from h)]
    simp [maxDeltaCap]
  constructor
  · rw [hsc]
    simp only [div_eq_mul_inv, one_div, one_mul]
  · rw [hsc, maxAbs_map_div delta _ hm, div_self hm.ne']

/-- C5, witness: delta vector `[3, -1, 0]` with maximum absolute component
3 — the common factor is exactly `1/3` and the scaled maximum is exactly
1. -/
theorem converging_scaling_witness :
    1 < maxAbs [3, -1, 0] ∧
    (scaleDelta [3, -1, 0] =
        ([3, -1, 0] : List ℚ).map (fun d => d * (1 / maxAbs [3, -1, 0])) ∧
      maxAbs (scaleDelta [3, -1, 0]) = 1) :=
  ⟨by decide, converging_scaling [3, -1, 0] (by decide)⟩

/-! ### C6 -/

theorem linspace_length (a b : List ℚ) (n : Nat) :
    (linspace a b n).length = n := by
  match n with
  | 0 => rfl
  | 1 => rfl
  | n + 2 =>
    show ((List.range (n + 2)).map (fun k : ℕ =>
      List.zipWith (fun x y => x + (y - x) * (k : ℚ) / ((n : ℚ) + 1)) a b)).length
        = n + 2
    rw [List.length_map, List.length_range]

/-- C6: for current and target joint vectors of equal shape, the step count
of `move_to_start_position` is `min(floor(maxAbsDelta / 0.01), 100)`; hence
at most 100 `env.step` calls are made, and a step count of 0 means the
maximum absolute per-joint delta is below the 0.01 tolerance and no
`env.step` call is made at all. -/
theorem move_to_start_step_bound (currJoints resetJoints : List ℚ)
    (hshape : resetJoints.length = currJoints.length) :
    moveSteps currJoints resetJoints =
      min ⌊maxAbs (List.zipWith (fun a b => a - b) currJoints resetJoints) /
            (1 / 100)⌋ 100 ∧
    (move_to_start_position currJoints (some resetJoints)
        true).stepCalls.length = (moveSteps currJoints resetJoints).toNat ∧
    (moveSteps currJoints resetJoints).toNat ≤ 100 ∧
    ((moveSteps currJoints resetJoints).toNat = 0 →
      maxAbs (List.zipWith (fun a b => a - b) currJoints resetJoints) <
        1 / 100 ∧
      (move_to_start_position currJoints (some resetJoints)
          true).stepCalls = []) := by
  have hmd : 0 ≤ maxAbs (List.zipWith (fun a b => a - b) currJoints resetJoints) :=
    maxAbs_nonneg _
  have hq : 0 ≤ maxAbs (List.zipWith (fun a b => a - b) currJoints resetJoints) /
      (1 / 100) :=
    div_nonneg hmd (by norm_num)
  have hms : moveSteps currJoints resetJoints =
      min ⌊maxAbs (List.zipWith (fun a b => a - b) currJoints resetJoints) /
            (1 / 100)⌋ 100 := by
    show min (pyInt (maxAbs (List.zipWith (fun a b => a - b) currJoints
        resetJoints) / (1 / 100))) 100 = _
    rw [pyInt_of_nonneg _ hq]
  have hsc : (move_to_start_position currJoints (some resetJoints)
      true).stepCalls =
      linspace currJoints resetJoints (moveSteps currJoints resetJoints).toNat := by
    simp [move_to_start_position, hshape]
  refine ⟨hms, ?_, ?_, ?_⟩
  · rw [hsc, linspace_length]
  · have h100 : moveSteps currJoints resetJoints ≤ 100 := by
      rw [hms]
      exact min_le_right _ _
    omega
  · intro hn0
    have hfl : 0 ≤ ⌊maxAbs (List.zipWith (fun a b => a - b) currJoints
        resetJoints) / (1 / 100)⌋ := Int.floor_nonneg.mpr hq
    have hz : moveSteps currJoints resetJoints = 0 := by
      have hge : 0 ≤ moveSteps currJoints resetJoints := by
        rw [hms]
        exact le_min hfl (by norm_num)
      omega
    have hfz : ⌊maxAbs (List.zipWith (fun a b => a - b) currJoints
        resetJoints) / (1 / 100)⌋ = 0 := by
      rw [hms] at hz
      rcases min_eq_iff.mp hz with h | h
      · exact h.1
      · exact absurd h.1 (by norm_num)
    constructor
    · have hlt : maxAbs (List.zipWith (fun a b => a - b) currJoints
          resetJoints) / (1 / 100) < ((1 : ℤ) : ℚ) :=
        Int.floor_lt.mp (by omega)
      rw [Int.cast_one] at hlt
      have := (div_lt_iff₀ (show (0 : ℚ) < 1 / 100 by norm_num)).mp hlt
      rwa [one_mul] at this
    · rw [hsc, hz]
      rfl

/-- C6, witness: current joints `[0,0,0,0,0,0]` and target
`[1/2,0,0,0,0,0]` — max delta `1/2`, so 50 interpolation steps. -/
theorem move_to_start_step_bound_witness :
    ([(1 : ℚ)/2, 0, 0, 0, 0, 0] : List ℚ).length =
      ([0, 0, 0, 0, 0, 0] : List ℚ).length ∧
    (moveSteps [0, 0, 0, 0, 0, 0] [(1 : ℚ)/2, 0, 0, 0, 0, 0] =
      min ⌊maxAbs (List.zipWith (fun a b => a - b) ([0, 0, 0, 0, 0, 0] : List ℚ)
            [(1 : ℚ)/2, 0, 0, 0, 0, 0]) / (1 / 100)⌋ 100 ∧
    (move_to_start_position [0, 0, 0, 0, 0, 0]
        (some [(1 : ℚ)/2, 0, 0, 0, 0, 0]) true).stepCalls.length =
      (moveSteps [0, 0, 0, 0, 0, 0] [(1 : ℚ)/2, 0, 0, 0, 0, 0]).toNat ∧
    (moveSteps [0, 0, 0, 0, 0, 0] [(1 : ℚ)/2, 0, 0, 0, 0, 0]).toNat ≤ 100 ∧
    ((moveSteps [0, 0, 0, 0, 0, 0] [(1 : ℚ)/2, 0, 0, 0, 0, 0]).toNat = 0 →
      maxAbs (List.zipWith (fun a b => a - b) ([0, 0, 0, 0, 0, 0] : List ℚ)
          [(1 : ℚ)/2, 0, 0, 0, 0, 0]) < 1 / 100 ∧
      (move_to_start_position [0, 0, 0, 0, 0, 0]
          (some [(1 : ℚ)/2, 0, 0, 0, 0, 0]) true).stepCalls = [])) :=
  ⟨rfl, move_to_start_step_bound [0, 0, 0, 0, 0, 0]
    [(1 : ℚ)/2, 0, 0, 0, 0, 0] rfl⟩

/-! ### C2 -/

/-- C2: for the claimed end-to-end scenario — environment reporting
`[0,0,0,0,0,0]`, agent echoing the joints, `start_joints=[0,0,0,0,0,0]` —
`launch` does not proceed into the main loop: the call
`move_to_start_position(self.env, left_cfg=self.cfg)` omits the required
positional argument `robot`, so argument binding raises `TypeError`, which
`launch` re-raises.  (Had the call bound, the start-positioning phase would
indeed have issued zero interpolation `env.step` calls, as the second
conjunct shows on its body.) -/
theorem launch_raises_type_error (fuel : Nat) :
    launch echoSystem (some [0, 0, 0, 0, 0, 0]) true fuel
        [0, 0, 0, 0, 0, 0] =
      Except.error PyError.typeError ∧
    (move_to_start_position [0, 0, 0, 0, 0, 0] (some [0, 0, 0, 0, 0, 0])
        true).stepCalls = [] := by
  refine ⟨rfl, ?_⟩
  have hms : moveSteps [0, 0, 0, 0, 0, 0] [0, 0, 0, 0, 0, 0] = 0 := by
    norm_num [moveSteps, maxAbs, ratAbs, pyInt, List.zipWith]
  have hsc : (move_to_start_position [0, 0, 0, 0, 0, 0]
      (some [0, 0, 0, 0, 0, 0]) true).stepCalls =
      linspace [0, 0, 0, 0, 0, 0] [0, 0, 0, 0, 0, 0]
        (moveSteps [0, 0, 0, 0, 0, 0] [0, 0, 0, 0, 0, 0]).toNat := by
    simp [move_to_start_position]
  rw [hsc, hms]
  rfl

end URTeleop
